import Mathlib

/-!
Verification of the smoldot light-node supervisor
(`src/bin/light-node/src/main.rs`).

The development shallowly embeds the parts of the program that the
specification talks about:

* the JSON data model and the serde-derived decoding of
  `HealthCheckData` / `HealthCheckResp` (main.rs lines 42-56);
* the health predicate `check_if_need_reconnect` (lines 58-66);
* `build_chain_spec` (lines 27-40), modelled over the parsed genesis
  object (file reading and JSON text parsing are external primitives,
  out of scope per the specification);
* the response pump (lines 186-261), the reconnect retry loop
  (lines 193-258) and the health-poll loop (lines 263-288), modelled
  as trace-producing functions over oracles for the outcomes of the
  external session engine (`add_chain`, `json_rpc_request`).

A JSON-RPC response text is represented throughout by the result of
parsing it: `Option Json`, where `none` stands for a text that is not
valid JSON.  JSON text parsing itself (serde_json's lexer) is one of
the external "thin I/O" collaborators the specification excludes; the
structural (shape-level) part of serde's deserialisation is modelled
faithfully, including its treatment of unknown fields (ignored),
duplicate fields (error) and u32 bounds.
-/

namespace LightNode

/-- JSON values, as produced by serde_json's parser.  Numbers are
modelled as integers: the program only ever decodes the `u32` fields
`id` and `peers`, for which serde_json rejects any non-integral
number, so integral numbers are the only ones whose decoding can
succeed. -/
inductive Json where
  | null : Json
  | bool : Bool → Json
  | num : Int → Json
  | str : String → Json
  | arr : List Json → Json
  | obj : List (String × Json) → Json

/-- Rust struct `HealthCheckData` (main.rs lines 42-48): the `result`
payload of a `system_health` reply.  `peers` is a `u32`; the bound is
enforced by the decoder. -/
structure HealthCheckData where
  is_syncing : Bool
  peers : Nat
  should_have_peers : Bool
deriving DecidableEq

/-- Rust struct `HealthCheckResp` (main.rs lines 50-56): a full
JSON-RPC health reply. -/
structure HealthCheckResp where
  jsonrpc : String
  id : Nat
  result : HealthCheckData
deriving DecidableEq

/-- serde deserialisation of a `bool` field. -/
def deserializeBool : Json → Option Bool
  | .bool b => some b
  | _ => none

/-- serde deserialisation of a `u32` field: a JSON integer in
`[0, 2^32 - 1]`; anything else errors. -/
def deserializeU32 : Json → Option Nat
  | .num n => if 0 ≤ n ∧ n ≤ 4294967295 then some n.toNat else none
  | _ => none

/-- serde deserialisation of a `String` field. -/
def deserializeString : Json → Option String
  | .str s => some s
  | _ => none

/-- Field collection for `HealthCheckData`, mirroring the visitor that
`#[derive(Deserialize)]` with `rename_all = "camelCase"` generates:
walk the object's entries in order, fill each known field at most once
(a duplicate known field is an error), skip unknown fields, and
require all three fields present at the end. -/
def collectHealthCheckData :
    List (String × Json) → Option Bool → Option Nat → Option Bool →
    Option HealthCheckData
  | [], fi, fp, fs =>
    match fi, fp, fs with
    | some i, some p, some s => some ⟨i, p, s⟩
    | _, _, _ => none
  | (k, v) :: rest, fi, fp, fs =>
    if k = "isSyncing" then
      match fi with
      | some _ => none
      | none => (deserializeBool v).bind fun b =>
          collectHealthCheckData rest (some b) fp fs
    else if k = "peers" then
      match fp with
      | some _ => none
      | none => (deserializeU32 v).bind fun n =>
          collectHealthCheckData rest fi (some n) fs
    else if k = "shouldHavePeers" then
      match fs with
      | some _ => none
      | none => (deserializeBool v).bind fun b =>
          collectHealthCheckData rest fi fp (some b)
    else
      collectHealthCheckData rest fi fp fs

/-- serde deserialisation of `HealthCheckData`: the value must be a
JSON object. -/
def deserializeHealthCheckData : Json → Option HealthCheckData
  | .obj fields => collectHealthCheckData fields none none none
  | _ => none

/-- Field collection for `HealthCheckResp`, same visitor discipline as
`collectHealthCheckData`. -/
def collectHealthCheckResp :
    List (String × Json) → Option String → Option Nat →
    Option HealthCheckData → Option HealthCheckResp
  | [], fj, fi, fr =>
    match fj, fi, fr with
    | some j, some i, some r => some ⟨j, i, r⟩
    | _, _, _ => none
  | (k, v) :: rest, fj, fi, fr =>
    if k = "jsonrpc" then
      match fj with
      | some _ => none
      | none => (deserializeString v).bind fun s =>
          collectHealthCheckResp rest (some s) fi fr
    else if k = "id" then
      match fi with
      | some _ => none
      | none => (deserializeU32 v).bind fun n =>
          collectHealthCheckResp rest fj (some n) fr
    else if k = "result" then
      match fr with
      | some _ => none
      | none => (deserializeHealthCheckData v).bind fun r =>
          collectHealthCheckResp rest fj fi (some r)
    else
      collectHealthCheckResp rest fj fi fr

/-- serde deserialisation of `HealthCheckResp`: the value must be a
JSON object. -/
def deserializeHealthCheckResp : Json → Option HealthCheckResp
  | .obj fields => collectHealthCheckResp fields none none none
  | _ => none

/-- The health predicate, main.rs lines 58-66.  The Rust function
takes the response text and runs
`serde_json::from_str::<HealthCheckResp>`; here the text is
represented by its parse result (`none` when the text is not valid
JSON), and `from_str` is the parse result bound into the structural
deserialiser.  The `if let Ok .. else false` of the source is the
`match` on the combined result.  Being a Lean `def`, the predicate is
total and pure by construction: it cannot raise. -/
def check_if_need_reconnect (resp : Option Json) : Bool :=
  match resp.bind deserializeHealthCheckResp with
  | some check_resp =>
    !check_resp.result.is_syncing
      && !check_resp.result.should_have_peers
      && (check_resp.result.peers == 0)
  | none => false

/-- Model of `serde_json::Map::insert` on the parsed genesis object:
replace the value in place when the key is present, append the entry
otherwise.  (The concrete `Map` keeps keys in a tree; the claims about
`build_chain_spec` are explicitly "up to key order", so an association
list with replace-or-append is the order-agnostic rendering.) -/
def mapInsert : List (String × Json) → String → Json → List (String × Json)
  | [], k, v => [(k, v)]
  | (k', v') :: rest, k, v =>
    if k' = k then (k, v) :: rest else (k', v') :: mapInsert rest k v

/-- Rust `build_chain_spec` (main.rs lines 27-40), over the parsed
genesis object.  Reading the file and parsing its text are the
external I/O primitives the specification puts out of scope; what the
function itself does is insert `bootNodes := [boot_nodes]` into the
genesis map and serialise the result. -/
def build_chain_spec (genesis : List (String × Json)) (boot_nodes : String) :
    List (String × Json) :=
  mapInsert genesis "bootNodes" (.arr [.str boot_nodes])

/-! ## Run-level model: request ids and session targets

The supervisor's shared state, as the source declares it: `chain_id`
is bound once by the destructuring of the initial `add_chain` result
(main.rs lines 148-156) and is never reassigned anywhere in the
program; `current_json_rpc_responses` holds the stream the pump reads
(line 187, reassigned at line 231); the poll counter `id` starts at 3
(line 264) and is incremented once per poll (line 275).

Every `json_rpc_request` the program ever makes is recorded as a
`Submission` (which chain id it targets, which JSON-RPC `id` the
request text carries).  The bootstrap subscriptions are fixed texts
with ids 1 and 2 (lines 168, 177 and, verbatim again, 242, 249).

A run is an interleaving of atomic steps: a health poll (lines
273-287, one request under the write lock) or a reconnect that
succeeds (lines 226-254, executed under the write lock: remove the
old chain, `add_chain` returns a fresh `AddChainSuccess`, whose
`chain_id` the pattern `AddChainSuccess { json_rpc_responses, .. }`
discards; install the new stream; reissue both bootstrap texts with
`chain_id` — the outer variable).  The interleaving is arbitrary
because both steps run under the same exclusive lock. -/

/-- Result of a successful `smoldot_light` `add_chain` call: the new
chain id and the handle of its JSON-RPC response stream (the stream
handle is abstracted as a number naming it). -/
structure AddChainSuccess where
  chain_id : Nat
  json_rpc_responses : Nat
deriving DecidableEq

/-- One atomic step of the run: a health poll, or a reconnect whose
`add_chain` succeeded and returned `newChain`. -/
inductive RunStep where
  | poll : RunStep
  | reconnect : AddChainSuccess → RunStep
deriving DecidableEq

/-- Discriminator for poll steps. -/
def RunStep.isPoll : RunStep → Bool
  | .poll => true
  | .reconnect _ => false

/-- Discriminator for reconnect steps. -/
def RunStep.isReconnect : RunStep → Bool
  | .poll => false
  | .reconnect _ => true

/-- One `json_rpc_request` call: the chain id passed and the JSON-RPC
`id` carried by the request text. -/
structure Submission where
  target : Nat
  reqId : Nat
deriving DecidableEq

/-- The supervisor's mutable state. -/
structure RunState where
  chain_id : Nat
  current_responses : Nat
  next_id : Nat
deriving DecidableEq

/-- Effect of one atomic step on the state, with the submissions it
makes.  A poll submits one request with the current counter value and
increments the counter (main.rs lines 274-283).  A reconnect installs
the new stream (line 231) and reissues the two fixed bootstrap texts,
ids 1 and 2, against `s.chain_id` — the outer, never-reassigned
variable (lines 240-252); `newChain.chain_id` is discarded by the
source's `..` pattern (lines 227-229). -/
def stepRun (s : RunState) : RunStep → RunState × List Submission
  | .poll =>
    ({ s with next_id := s.next_id + 1 }, [⟨s.chain_id, s.next_id⟩])
  | .reconnect newChain =>
    ({ s with current_responses := newChain.json_rpc_responses },
      [⟨s.chain_id, 1⟩, ⟨s.chain_id, 2⟩])

/-- Fold `stepRun` over a schedule, collecting all submissions in
order. -/
def runFrom (s : RunState) : List RunStep → List Submission × RunState
  | [] => ([], s)
  | st :: rest =>
    let (s', subs) := stepRun s st
    let (subs', sf) := runFrom s' rest
    (subs ++ subs', sf)

/-- A whole run: the initial `add_chain` returns `init` (main.rs
lines 148-156), the two bootstrap subscriptions go out with ids 1 and
2 against `init.chain_id` (lines 164-180), the poll counter starts at
3 (line 264), then the schedule executes. -/
def runProcess (init : AddChainSuccess) (steps : List RunStep) :
    List Submission × RunState :=
  let s0 : RunState := ⟨init.chain_id, init.json_rpc_responses, 3⟩
  let (subs, sf) := runFrom s0 steps
  (⟨init.chain_id, 1⟩ :: ⟨init.chain_id, 2⟩ :: subs, sf)

/-- The JSON-RPC ids issued over a whole run, in order. -/
def issuedIds (init : AddChainSuccess) (steps : List RunStep) : List Nat :=
  (runProcess init steps).1.map Submission.reqId

/-! ## Event-level model of the reconnect retry loop

The inner `loop` at main.rs lines 196-258, one event per observable
action.  Each iteration: take the write lock (line 198), best-effort
`remove_chain` (line 226), attempt `add_chain` (lines 227-229).  On
failure the block ends (the lock guard drops, line 256) and the task
sleeps 5 seconds (line 257) before retrying.  On success the new
stream is installed (lines 231-232), then the first bootstrap request
is submitted and `.unwrap()`-ed (lines 240-245) — a submit failure
panics the task —, then the second likewise (lines 247-252), then
`break` leaves the loop and the guard drops.  The open outcomes are an
oracle list (one `Bool` per attempted iteration); the two submit
outcomes are oracles `s1`, `s2`. -/

/-- Observable events of the retry loop. -/
inductive Ev where
  | lock : Ev
  | unlock : Ev
  | removeChain : Ev
  | openAttempt : Bool → Ev
  | installStream : Ev
  | submitSub : Nat → Bool → Ev
  | sleep : Nat → Ev
  | panicked : Ev
deriving DecidableEq

/-- Discriminator: an `add_chain` attempt (of either outcome). -/
def Ev.isOpenAttempt : Ev → Bool
  | .openAttempt _ => true
  | _ => false

/-- Discriminator: a sleep of any duration. -/
def Ev.isSleep : Ev → Bool
  | .sleep _ => true
  | _ => false

/-- How the modelled fragment of the loop ended. -/
inductive LoopExit where
  | finished : LoopExit
  | panicked : LoopExit
  | stillRetrying : LoopExit
deriving DecidableEq

/-- The retry loop (main.rs lines 196-258) over an oracle of open
outcomes: the trace of events and how the loop left the modelled
fragment.  When the oracle is exhausted without a success the loop is
still retrying (it is unbounded in the source). -/
def reconnectRetryLoop : List Bool → Bool → Bool → List Ev × LoopExit
  | [], _, _ => ([], .stillRetrying)
  | ok :: rest, s1, s2 =>
    if ok then
      if s1 then
        if s2 then
          ([.lock, .removeChain, .openAttempt true, .installStream,
            .submitSub 1 true, .submitSub 2 true, .unlock], .finished)
        else
          ([.lock, .removeChain, .openAttempt true, .installStream,
            .submitSub 1 true, .submitSub 2 false, .panicked], .panicked)
      else
        ([.lock, .removeChain, .openAttempt true, .installStream,
          .submitSub 1 false, .panicked], .panicked)
    else
      let (evs, r) := reconnectRetryLoop rest s1 s2
      ([.lock, .removeChain, .openAttempt false, .unlock, .sleep 5] ++ evs, r)

/-- Trace of one failed open attempt: lock, remove, failed
`add_chain`, guard drop, 5-second sleep. -/
def failBlk : List Ev :=
  [.lock, .removeChain, .openAttempt false, .unlock, .sleep 5]

/-- Trace of the successful final attempt with both submits
succeeding. -/
def succBlk : List Ev :=
  [.lock, .removeChain, .openAttempt true, .installStream,
    .submitSub 1 true, .submitSub 2 true, .unlock]

/-- Scan of a trace checking that every `sleep` happens at lock depth
zero (the write guard has been dropped). -/
def sleepsOutsideLock : Nat → List Ev → Bool
  | _, [] => true
  | d, .lock :: rest => sleepsOutsideLock (d + 1) rest
  | d, .unlock :: rest => sleepsOutsideLock (d - 1) rest
  | d, .sleep _ :: rest => (d == 0) && sleepsOutsideLock d rest
  | d, _ :: rest => sleepsOutsideLock d rest

/-! ## The response pump

The spawned task at main.rs lines 186-261: repeatedly
`current_json_rpc_responses.next().await.unwrap()` — so an
end-of-stream (`None` from `next`) panics the task —, print the
response (the sink), then run `check_if_need_reconnect` and enter the
reconnect loop when it fires.  The stream is a finite list of parsed
response texts followed by end-of-stream. -/

/-- Outcome of pumping a stream: either the stream ended and the
`unwrap` of `None` panicked (after forwarding the listed messages to
the sink), or some message triggered the reconnect path (with the
messages forwarded so far, the trigger included, and the rest of the
stream unread). -/
inductive PumpOutcome where
  | fatalPanic : List (Option Json) → PumpOutcome
  | reconnectTriggered : List (Option Json) → List (Option Json) → PumpOutcome

/-- The pump loop (main.rs lines 189-259) on a stream that ends after
its listed messages. -/
def runPump : List (Option Json) → PumpOutcome
  | [] => .fatalPanic []
  | m :: rest =>
    if check_if_need_reconnect m then
      .reconnectTriggered [m] rest
    else
      match runPump rest with
      | .fatalPanic f => .fatalPanic (m :: f)
      | .reconnectTriggered f rem => .reconnectTriggered (m :: f) rem

/-! ## Concrete JSON values used by the witnesses -/

/-- The exact unhealthy reply from the specification:
isSyncing false, peers 0, shouldHavePeers false, id 7. -/
def unhealthyReply : Json :=
  .obj [("jsonrpc", .str "2.0"), ("id", .num 7),
    ("result", .obj [("isSyncing", .bool false), ("peers", .num 0),
      ("shouldHavePeers", .bool false)])]

/-- A healthy reply: 5 peers. -/
def healthyReply : Json :=
  .obj [("jsonrpc", .str "2.0"), ("id", .num 8),
    ("result", .obj [("isSyncing", .bool false), ("peers", .num 5),
      ("shouldHavePeers", .bool false)])]

/-- A subscription notification: a well-formed JSON-RPC message that
is not a health reply (no `id`, no top-level `result`). -/
def subscriptionNotification : Json :=
  .obj [("jsonrpc", .str "2.0"), ("method", .str "chain_newHead"),
    ("params", .obj [("subscription", .str "tkzp"),
      ("result", .obj [("number", .str "0x1")])])]

/-! ## Helper lemmas -/

/-- One step never changes `chain_id`: no assignment to the variable
exists in the program. -/
theorem stepRun_chain_id (s : RunState) (st : RunStep) :
    (stepRun s st).1.chain_id = s.chain_id := by
  cases st <;> rfl

/-- A whole schedule never changes `chain_id`. -/
theorem runFrom_chain_id (steps : List RunStep) (s : RunState) :
    (runFrom s steps).2.chain_id = s.chain_id := by
  induction steps generalizing s with
  | nil => rfl
  | cons st rest ih =>
    cases st <;> simp [runFrom, stepRun, ih]

/-- Every submission of a schedule targets the state's `chain_id`. -/
theorem runFrom_targets (steps : List RunStep) (s : RunState) :
    (runFrom s steps).1.all (fun sub => sub.target == s.chain_id) = true := by
  induction steps generalizing s with
  | nil => rfl
  | cons st rest ih =>
    cases st <;> simp [runFrom, stepRun] <;>
      simpa using ih _

/-- Splitting a schedule splits the submission list at the
intermediate state. -/
theorem runFrom_append (l1 l2 : List RunStep) (s : RunState) :
    runFrom s (l1 ++ l2)
      = ((runFrom s l1).1 ++ (runFrom (runFrom s l1).2 l2).1,
          (runFrom (runFrom s l1).2 l2).2) := by
  induction l1 generalizing s with
  | nil => simp [runFrom]
  | cons st rest ih =>
    simp [runFrom, ih]

/-- Ids emitted from a state whose counter is at least 3: the polls
contribute exactly the consecutive block starting at the counter, and
the bootstrap ids 1 and 2 are contributed once per reconnect. -/
theorem runFrom_ids (steps : List RunStep) (cid cur c : Nat) (hc : 3 ≤ c) :
    (((runFrom ⟨cid, cur, c⟩ steps).1.map Submission.reqId).filter
        (fun i => decide (3 ≤ i))
      = List.range' c (steps.countP RunStep.isPoll))
    ∧ ((runFrom ⟨cid, cur, c⟩ steps).1.map Submission.reqId).count 1
        = steps.countP RunStep.isReconnect
    ∧ ((runFrom ⟨cid, cur, c⟩ steps).1.map Submission.reqId).count 2
        = steps.countP RunStep.isReconnect := by
  induction steps generalizing cur c with
  | nil => simp [runFrom]
  | cons st rest ih =>
    cases st with
    | poll =>
      obtain ⟨ih1, ih2, ih3⟩ := ih cur (c + 1) (by omega)
      refine ⟨?_, ?_, ?_⟩
      · simp [runFrom, stepRun, List.filter, hc, ih1, List.range',
          RunStep.isPoll, List.countP_cons]
      · simp [runFrom, stepRun, List.count_cons, ih2, RunStep.isReconnect,
          List.countP_cons]
        omega
      · simp [runFrom, stepRun, List.count_cons, ih3, RunStep.isReconnect,
          List.countP_cons]
        omega
    | reconnect nc =>
      obtain ⟨ih1, ih2, ih3⟩ := ih nc.json_rpc_responses c hc
      refine ⟨?_, ?_, ?_⟩
      · simp [runFrom, stepRun, List.filter, ih1, RunStep.isPoll,
          List.countP_cons]
      · simp [runFrom, stepRun, List.count_cons, ih2, RunStep.isReconnect,
          List.countP_cons]
      · simp [runFrom, stepRun, List.count_cons, ih3, RunStep.isReconnect,
          List.countP_cons]

/-- Prefix of `k` failed open attempts in the retry loop. -/
theorem retryLoop_replicate_false (k : Nat) (rest : List Bool) (s1 s2 : Bool) :
    reconnectRetryLoop (List.replicate k false ++ rest) s1 s2
      = ((List.replicate k failBlk).flatten ++ (reconnectRetryLoop rest s1 s2).1,
          (reconnectRetryLoop rest s1 s2).2) := by
  induction k with
  | zero => simp
  | succ n ih =>
    simp [List.replicate_succ, reconnectRetryLoop, ih, failBlk]

/-- Count over the concatenation of `k` identical blocks. -/
theorem countP_flatten_replicate (k : Nat) (l : List Ev) (p : Ev → Bool) :
    ((List.replicate k l).flatten).countP p = k * l.countP p := by
  induction k with
  | zero => simp
  | succ n ih =>
    simp [List.replicate_succ, List.countP_append, ih, Nat.succ_mul]
    omega

/-- Filter over the concatenation of `k` identical blocks. -/
theorem filter_flatten_replicate (k : Nat) (l : List Ev) (p : Ev → Bool) :
    ((List.replicate k l).flatten).filter p = (List.replicate k (l.filter p)).flatten := by
  induction k with
  | zero => simp
  | succ n ih =>
    simp [List.replicate_succ, List.filter_append, ih]

/-- Flattening `k` copies of a singleton. -/
theorem flatten_replicate_singleton (k : Nat) (a : Ev) :
    (List.replicate k [a]).flatten = List.replicate k a := by
  induction k with
  | zero => rfl
  | succ n ih =>
    simp [List.replicate_succ, ih]

/-- Lookup after `mapInsert`: the inserted key maps to the new value,
every other key is untouched. -/
theorem mapInsert_lookup (l : List (String × Json)) (k : String) (v : Json) :
    (mapInsert l k v).lookup k = some v
    ∧ ∀ k', k' ≠ k → (mapInsert l k v).lookup k' = l.lookup k' := by
  induction l with
  | nil =>
    refine ⟨by simp [mapInsert], fun k' hk' => ?_⟩
    have hb : (k' == k) = false := by simp [hk']
    simp [mapInsert, List.lookup, hb]
  | cons kv rest ih =>
    obtain ⟨k0, v0⟩ := kv
    by_cases h0 : k0 = k
    · subst h0
      refine ⟨by simp [mapInsert, List.lookup], fun k' hk' => ?_⟩
      have hb : (k' == k0) = false := by simp [hk']
      simp [mapInsert, List.lookup, hb]
    · refine ⟨?_, fun k' hk' => ?_⟩
      · have : (k == k0) = false := by
          simp [Ne.symm h0]
        simp [mapInsert, h0, List.lookup, this, ih.1]
      · by_cases h1 : k' = k0
        · subst h1
          simp [mapInsert, h0, List.lookup]
        · have : (k' == k0) = false := by simp [h1]
          simp [mapInsert, h0, List.lookup, this, ih.2 k' hk']

/-! ## Claims about the Health Evaluator -/

/-- C2: for every response that decodes as a health reply, the Health
Evaluator signals "needs reconnect" exactly when
`isSyncing == false AND shouldHavePeers == false AND peers == 0`; in
particular any decoded reply with `peers > 0` or `isSyncing == true`
or `shouldHavePeers == true` yields "no reconnect". -/
theorem health_evaluator_exact (v : Json) (r : HealthCheckResp)
    (h : deserializeHealthCheckResp v = some r) :
    (check_if_need_reconnect (some v)
        = (!r.result.is_syncing && !r.result.should_have_peers
            && (r.result.peers == 0)))
    ∧ (r.result.peers ≠ 0 ∨ r.result.is_syncing = true
        ∨ r.result.should_have_peers = true →
      check_if_need_reconnect (some v) = false) := by
  have hc : check_if_need_reconnect (some v)
      = (!r.result.is_syncing && !r.result.should_have_peers
          && (r.result.peers == 0)) := by
    simp [check_if_need_reconnect, h]
  refine ⟨hc, fun hcase => ?_⟩
  rw [hc]
  rcases hcase with h1 | h1 | h1
  · simp [Nat.beq_eq_true_eq, h1]
  · simp [h1]
  · simp [h1]

/-- C2 witness: the specification's exact unhealthy reply triggers a
reconnect, and a decoded reply with 5 peers does not. -/
theorem health_evaluator_exact_witness :
    check_if_need_reconnect (some unhealthyReply) = true
    ∧ check_if_need_reconnect (some healthyReply) = false := by
  constructor
  · rw [(health_evaluator_exact unhealthyReply ⟨"2.0", 7, ⟨false, 0, false⟩⟩
      (by rfl)).1]
    decide
  · exact (health_evaluator_exact healthyReply ⟨"2.0", 8, ⟨false, 5, false⟩⟩
      (by rfl)).2 (Or.inl (by decide))

/-- C4: any input that does not decode as the health-response shape —
including a text that is not JSON at all (`none`) — makes the Health
Evaluator return "no reconnect"; the evaluator is a total function
and cannot raise. -/
theorem health_evaluator_decode_failure :
    check_if_need_reconnect none = false
    ∧ ∀ p : Option Json, p.bind deserializeHealthCheckResp = none →
        check_if_need_reconnect p = false := by
  refine ⟨rfl, fun p h => ?_⟩
  simp [check_if_need_reconnect, h]

/-- C4 witness: a subscription notification yields "no reconnect". -/
theorem health_evaluator_decode_failure_witness :
    check_if_need_reconnect (some subscriptionNotification) = false :=
  health_evaluator_decode_failure.2 (some subscriptionNotification) (by rfl)

/-- C10: the decode is opportunistic and shape-only: any object with a
string `jsonrpc` of any value, any u32 `id` (not matched against
issued ids), and a `result` carrying the three health fields decodes,
with unknown extra fields ignored at both levels; such an unsolicited
message with the unhealthy field values triggers a reconnect. -/
theorem health_decode_shape_only (s : String) (i : Nat) (k1 k2 : String)
    (w1 w2 : Json) (hi : i ≤ 4294967295)
    (hk1j : k1 ≠ "jsonrpc") (hk1i : k1 ≠ "id") (hk1r : k1 ≠ "result")
    (hk2s : k2 ≠ "isSyncing") (hk2p : k2 ≠ "peers")
    (hk2h : k2 ≠ "shouldHavePeers") :
    deserializeHealthCheckResp
        (.obj [("jsonrpc", .str s), ("id", .num i),
          ("result", .obj [("isSyncing", .bool false), ("peers", .num 0),
            ("shouldHavePeers", .bool false), (k2, w2)]),
          (k1, w1)])
      = some ⟨s, i, ⟨false, 0, false⟩⟩
    ∧ check_if_need_reconnect
        (some (.obj [("jsonrpc", .str s), ("id", .num i),
          ("result", .obj [("isSyncing", .bool false), ("peers", .num 0),
            ("shouldHavePeers", .bool false), (k2, w2)]),
          (k1, w1)]))
      = true := by
  have hdec : deserializeHealthCheckResp
      (.obj [("jsonrpc", .str s), ("id", .num i),
        ("result", .obj [("isSyncing", .bool false), ("peers", .num 0),
          ("shouldHavePeers", .bool false), (k2, w2)]),
        (k1, w1)])
      = some ⟨s, i, ⟨false, 0, false⟩⟩ := by
    have hibound : (0 : Int) ≤ (i : Int) ∧ (i : Int) ≤ 4294967295 := by
      constructor
      · exact Int.ofNat_nonneg i
      · exact_mod_cast hi
    simp [deserializeHealthCheckResp, collectHealthCheckResp,
      deserializeHealthCheckData, collectHealthCheckData,
      deserializeString, deserializeU32, deserializeBool,
      hk1j, hk1i, hk1r, hk2s, hk2p, hk2h, hibound]
  refine ⟨hdec, ?_⟩
  simp [check_if_need_reconnect, hdec]

/-- C10 witness: a message with `jsonrpc` equal to "1.0" (not "2.0"),
an id never issued, and extra fields at both levels decodes and
triggers a reconnect. -/
theorem health_decode_shape_only_witness :
    deserializeHealthCheckResp
        (.obj [("jsonrpc", .str "1.0"), ("id", .num 4294967295),
          ("result", .obj [("isSyncing", .bool false), ("peers", .num 0),
            ("shouldHavePeers", .bool false), ("extraInner", .null)]),
          ("method", .str "unsolicited")])
      = some ⟨"1.0", 4294967295, ⟨false, 0, false⟩⟩
    ∧ check_if_need_reconnect
        (some (.obj [("jsonrpc", .str "1.0"), ("id", .num 4294967295),
          ("result", .obj [("isSyncing", .bool false), ("peers", .num 0),
            ("shouldHavePeers", .bool false), ("extraInner", .null)]),
          ("method", .str "unsolicited")]))
      = true :=
  health_decode_shape_only "1.0" 4294967295 "method" "extraInner"
    (.str "unsolicited") .null (by decide) (by decide) (by decide)
    (by decide) (by decide) (by decide) (by decide)

/-- C7: `build_chain_spec` maps `bootNodes` to exactly the singleton
array of the supplied address, leaves every other key of the genesis
object unchanged, and on the specification's concrete example produces
exactly the expected object. -/
theorem build_chain_spec_spec (g : List (String × Json)) (b : String) :
    (build_chain_spec g b).lookup "bootNodes" = some (.arr [.str b])
    ∧ (∀ k, k ≠ "bootNodes" →
        (build_chain_spec g b).lookup k = g.lookup k)
    ∧ build_chain_spec [("name", .str "test")] "/ip4/1.2.3.4/tcp/30333"
        = [("name", .str "test"),
            ("bootNodes", .arr [.str "/ip4/1.2.3.4/tcp/30333"])] :=
  ⟨(mapInsert_lookup g "bootNodes" (.arr [.str b])).1,
    fun k hk => (mapInsert_lookup g "bootNodes" (.arr [.str b])).2 k hk,
    rfl⟩

/-- C7 witness: on the specification's example the `bootNodes` entry
is the singleton array and the `name` entry is untouched. -/
theorem build_chain_spec_spec_witness :
    (build_chain_spec [("name", .str "test")]
        "/ip4/1.2.3.4/tcp/30333").lookup "bootNodes"
      = some (.arr [.str "/ip4/1.2.3.4/tcp/30333"])
    ∧ (build_chain_spec [("name", .str "test")]
        "/ip4/1.2.3.4/tcp/30333").lookup "name"
      = ([("name", .str "test")] : List (String × Json)).lookup "name" :=
  ⟨(build_chain_spec_spec [("name", .str "test")] "/ip4/1.2.3.4/tcp/30333").1,
    (build_chain_spec_spec [("name", .str "test")]
      "/ip4/1.2.3.4/tcp/30333").2.1 "name" (by decide)⟩

/-! ## Claims about request ids and session identity -/

/-- C1 counterexample: a run with one health poll followed by one
reconnect issues five requests whose ids are 1, 2, 3, 1, 2 — not the
claimed gap-free, repeat-free 1..5: the reconnect reissues the
bootstrap texts with their hardcoded ids 1 and 2 (main.rs lines
242, 249). -/
theorem issued_ids_repeat_counterexample :
    issuedIds ⟨0, 0⟩ [.poll, .reconnect ⟨0, 1⟩] = [1, 2, 3, 1, 2]
    ∧ (issuedIds ⟨0, 0⟩ [.poll, .reconnect ⟨0, 1⟩]).length = 5
    ∧ issuedIds ⟨0, 0⟩ [.poll, .reconnect ⟨0, 1⟩] ≠ [1, 2, 3, 4, 5]
    ∧ ¬ (issuedIds ⟨0, 0⟩ [.poll, .reconnect ⟨0, 1⟩]).Nodup := by
  decide

/-- C1 amended: only the health-poll counter is monotone and never
reset — in every run the poll-issued ids are exactly the consecutive
block 3, 4, ... (one per poll, in order, across any number of
reconnects), while the bootstrap subscription texts carry the fixed
ids 1 and 2, reissued once per reconnect, so ids 1 and 2 repeat
whenever a reconnect occurs. -/
theorem issued_ids_amended (init : AddChainSuccess) (steps : List RunStep) :
    (issuedIds init steps).filter (fun i => decide (3 ≤ i))
        = List.range' 3 (steps.countP RunStep.isPoll)
    ∧ (issuedIds init steps).count 1 = 1 + steps.countP RunStep.isReconnect
    ∧ (issuedIds init steps).count 2 = 1 + steps.countP RunStep.isReconnect := by
  obtain ⟨h1, h2, h3⟩ :=
    runFrom_ids steps init.chain_id init.json_rpc_responses 3 (by omega)
  refine ⟨?_, ?_, ?_⟩
  · simpa [issuedIds, runProcess, List.filter] using h1
  · simp [issuedIds, runProcess, List.count_cons, h2]
    omega
  · simp [issuedIds, runProcess, List.count_cons, h3]
    omega

/-- C3 counterexample: initial `add_chain` returns chain id 0; the
reconnect's `add_chain` returns chain id 1 with stream 7.  The two
resubscription requests (and every other submission) target 0, never
the new id 1 — the source destructures
`AddChainSuccess { json_rpc_responses, .. }`, discarding the new id —
while the new stream 7 is installed. -/
theorem reconnect_session_id_counterexample :
    (runProcess ⟨0, 5⟩ [.reconnect ⟨1, 7⟩]).1.map Submission.target
        = [0, 0, 0, 0]
    ∧ (⟨1, 7⟩ : AddChainSuccess).chain_id = 1
    ∧ ¬ (1 ∈ (runProcess ⟨0, 5⟩ [.reconnect ⟨1, 7⟩]).1.map Submission.target)
    ∧ (runProcess ⟨0, 5⟩ [.reconnect ⟨1, 7⟩]).2.current_responses = 7 := by
  decide

/-- C3 amended: after a successful reopen the two bootstrap requests
are reissued — but against the original chain id obtained from the
startup `add_chain` (the id returned by the reopen is discarded), the
new response stream is installed as current, and every submission of
the whole run, the health polls included, targets that same original
chain id. -/
theorem reconnect_uses_original_chain_id (init : AddChainSuccess)
    (steps : List RunStep) (nc : AddChainSuccess) :
    (runProcess init steps).1.all
        (fun sub => sub.target == init.chain_id) = true
    ∧ (runProcess init steps).2.chain_id = init.chain_id
    ∧ (runProcess init (steps ++ [.reconnect nc])).1
        = (runProcess init steps).1
            ++ [⟨init.chain_id, 1⟩, ⟨init.chain_id, 2⟩]
    ∧ (runProcess init (steps ++ [.reconnect nc])).2.current_responses
        = nc.json_rpc_responses := by
  refine ⟨?_, ?_, ?_, ?_⟩
  · simp [runProcess]
    simpa using runFrom_targets steps ⟨init.chain_id, init.json_rpc_responses, 3⟩
  · simp [runProcess, runFrom_chain_id]
  · simp [runProcess, runFrom_append, runFrom, stepRun,
      runFrom_chain_id]
  · simp [runProcess, runFrom_append, runFrom, stepRun]

/-! ## Claims about the reconnect retry loop -/

/-- C5: when the first `k` open attempts fail and attempt `k + 1`
succeeds (both submits succeeding), the loop performs exactly `k + 1`
open attempts, sleeps exactly `k` times — always 5 seconds, between
consecutive attempts, with no backoff growth and no cap (the statement
holds for every `k`) — and issues each bootstrap subscription exactly
once before leaving the loop. -/
theorem retry_loop_exact (k : Nat) :
    reconnectRetryLoop (List.replicate k false ++ [true]) true true
        = ((List.replicate k failBlk).flatten ++ succBlk, .finished)
    ∧ (reconnectRetryLoop (List.replicate k false ++ [true]) true
        true).1.countP Ev.isOpenAttempt = k + 1
    ∧ (reconnectRetryLoop (List.replicate k false ++ [true]) true
        true).1.filter Ev.isSleep = List.replicate k (.sleep 5)
    ∧ (reconnectRetryLoop (List.replicate k false ++ [true]) true
        true).1.countP (fun e => e == .submitSub 1 true) = 1
    ∧ (reconnectRetryLoop (List.replicate k false ++ [true]) true
        true).1.countP (fun e => e == .submitSub 2 true) = 1 := by
  have hform : reconnectRetryLoop (List.replicate k false ++ [true]) true true
      = ((List.replicate k failBlk).flatten ++ succBlk, .finished) := by
    rw [retryLoop_replicate_false]
    simp [reconnectRetryLoop, succBlk]
  have copen1 : List.countP Ev.isOpenAttempt failBlk = 1 := by decide
  have copen2 : List.countP Ev.isOpenAttempt succBlk = 1 := by decide
  have cs1f : List.countP (fun e => e == Ev.submitSub 1 true) failBlk = 0 := by
    decide
  have cs1s : List.countP (fun e => e == Ev.submitSub 1 true) succBlk = 1 := by
    decide
  have cs2f : List.countP (fun e => e == Ev.submitSub 2 true) failBlk = 0 := by
    decide
  have cs2s : List.countP (fun e => e == Ev.submitSub 2 true) succBlk = 1 := by
    decide
  have fslf : failBlk.filter Ev.isSleep = [Ev.sleep 5] := by decide
  have fsls : succBlk.filter Ev.isSleep = [] := by decide
  refine ⟨hform, ?_, ?_, ?_, ?_⟩
  · rw [hform]
    rw [List.countP_append, countP_flatten_replicate, copen1, copen2]
    omega
  · rw [hform]
    rw [List.filter_append, filter_flatten_replicate, fslf, fsls,
      flatten_replicate_singleton]
    simp
  · rw [hform]
    rw [List.countP_append, countP_flatten_replicate, cs1f, cs1s]
    omega
  · rw [hform]
    rw [List.countP_append, countP_flatten_replicate, cs2f, cs2s]
    omega

/-- C6: in every trace of the retry loop — whatever the open and
submit outcomes — each sleep happens at lock depth zero: the write
guard is dropped before the 5-second retry delay, so the health-poll
loop is not locked out for the whole retry period. -/
theorem retry_sleeps_outside_lock (outcomes : List Bool) (s1 s2 : Bool) :
    sleepsOutsideLock 0 (reconnectRetryLoop outcomes s1 s2).1 = true := by
  induction outcomes with
  | nil => rfl
  | cons ok rest ih =>
    cases ok
    · simpa [reconnectRetryLoop, sleepsOutsideLock] using ih
    · cases s1 <;> cases s2 <;> rfl

/-- C8: a failed bootstrap submission after a successful reopen
panics the task (fatal, never retried: the open count stays `k + 1`
however many further open outcomes the oracle would offer, and after
a failed first submission the second is never issued), whereas open
failures alone never panic — after `k` of them the loop is still
retrying. -/
theorem post_reconnect_submit_failure_fatal (k : Nat) (rest : List Bool) :
    (reconnectRetryLoop (List.replicate k false ++ true :: rest)
        false true).2 = .panicked
    ∧ (reconnectRetryLoop (List.replicate k false ++ true :: rest)
        false true).1.countP Ev.isOpenAttempt = k + 1
    ∧ (reconnectRetryLoop (List.replicate k false ++ true :: rest)
        false true).1.countP (fun e => e == .submitSub 2 true) = 0
    ∧ (reconnectRetryLoop (List.replicate k false ++ true :: rest)
        true false).2 = .panicked
    ∧ (reconnectRetryLoop (List.replicate k false ++ true :: rest)
        true false).1.countP Ev.isOpenAttempt = k + 1
    ∧ (reconnectRetryLoop (List.replicate k false) true true).2
        = .stillRetrying
    ∧ (reconnectRetryLoop (List.replicate k false) true
        true).1.countP Ev.isOpenAttempt = k := by
  have h1 := retryLoop_replicate_false k (true :: rest) false true
  have h2 := retryLoop_replicate_false k (true :: rest) true false
  have h3 := retryLoop_replicate_false k [] true true
  have hs1 : reconnectRetryLoop (true :: rest) false true
      = ([.lock, .removeChain, .openAttempt true, .installStream,
          .submitSub 1 false, .panicked], .panicked) := by
    simp [reconnectRetryLoop]
  have hs2 : reconnectRetryLoop (true :: rest) true false
      = ([.lock, .removeChain, .openAttempt true, .installStream,
          .submitSub 1 true, .submitSub 2 false, .panicked], .panicked) := by
    simp [reconnectRetryLoop]
  rw [hs1] at h1
  rw [hs2] at h2
  rw [List.append_nil] at h3
  have copen1 : List.countP Ev.isOpenAttempt failBlk = 1 := by decide
  have copens1 : List.countP Ev.isOpenAttempt
      [Ev.lock, Ev.removeChain, Ev.openAttempt true, Ev.installStream,
        Ev.submitSub 1 false, Ev.panicked] = 1 := by decide
  have copens2 : List.countP Ev.isOpenAttempt
      [Ev.lock, Ev.removeChain, Ev.openAttempt true, Ev.installStream,
        Ev.submitSub 1 true, Ev.submitSub 2 false, Ev.panicked] = 1 := by
    decide
  have cs2f : List.countP (fun e => e == Ev.submitSub 2 true) failBlk = 0 := by
    decide
  have cs2s : List.countP (fun e => e == Ev.submitSub 2 true)
      [Ev.lock, Ev.removeChain, Ev.openAttempt true, Ev.installStream,
        Ev.submitSub 1 false, Ev.panicked] = 0 := by decide
  refine ⟨?_, ?_, ?_, ?_, ?_, ?_, ?_⟩
  · rw [h1]
  · rw [h1]
    simp only [List.countP_append, countP_flatten_replicate, copen1, copens1]
    omega
  · rw [h1]
    simp only [List.countP_append, countP_flatten_replicate, cs2f, cs2s]
    omega
  · rw [h2]
  · rw [h2]
    simp only [List.countP_append, countP_flatten_replicate, copen1, copens2]
    omega
  · rw [h3]
    rfl
  · rw [h3]
    simp only [List.countP_append, countP_flatten_replicate, copen1]
    simp [reconnectRetryLoop]

/-! ## Claim about the response pump -/

/-- C9: on a stream none of whose messages triggers the health
predicate, the pump forwards every message exactly once and then, at
end-of-stream, panics (the `unwrap` of `None`): unexpected stream
termination without an unhealthy signal is fatal, not a silent
retry or reconnect. -/
theorem pump_eos_fatal (stream : List (Option Json))
    (h : stream.all (fun m => !check_if_need_reconnect m) = true) :
    runPump stream = .fatalPanic stream := by
  induction stream with
  | nil => rfl
  | cons m rest ih =>
    rw [List.all_cons, Bool.and_eq_true] at h
    have hm : check_if_need_reconnect m = false := by
      simpa using h.1
    simp [runPump, hm, ih h.2]

/-- C9 witness: a stream holding one subscription notification and
one non-JSON text, then ending, forwards both and panics. -/
theorem pump_eos_fatal_witness :
    runPump [some subscriptionNotification, none]
      = .fatalPanic [some subscriptionNotification, none] :=
  pump_eos_fatal [some subscriptionNotification, none] (by decide)

end LightNode
